import Mathlib

/-!
# Verification of the market-dashboard data layer

Shallow embedding of the non-presentation logic of the BTC/XAU dashboard
(`services/marketService.ts`, duplicated inside the merged single-file app):
the ticker fetchers, the high/low bucket computation, the timeframe lookup,
the two-series time-series merge of `fetchChartData`, and the control flow of
`fetchAIAnalysis`.

Modelling conventions:
* A network fetch result (`safeFetch`) is `Option α`: `none` models the
  `null` returned on any transport / non-2xx / JSON failure.
* Parsed decimal values (`parseFloat` of the exchange's numeric strings) are
  modelled as `ℚ`.  The JavaScript truthiness test `v || fallback` on such a
  parsed number is falsy exactly at `0` (and at `NaN`, which has no `ℚ`
  counterpart; a failed parse is out of scope of the claims checked here).
* A kline (candle) row `k` is the array
  `[openTime, open, high, low, close, ...]`; the code reads `k[0]`, `k[2]`,
  `k[3]`, `k[4]`, so the embedding keeps exactly those fields.
* Locale-dependent display labels (`toLocaleTimeString` /
  `toLocaleDateString`) are presentation-only and are not part of any claim;
  the merged point keeps the numeric timestamp instead.
-/

namespace MarketService

/-- A candle row as consumed by the service: `k[0]` open time (ms),
`k[2]` high, `k[3]` low, `k[4]` close, each already `parseFloat`-parsed. -/
structure Kline where
  openTime : Nat
  high : ℚ
  low : ℚ
  close : ℚ
deriving Repr, DecidableEq

/-- One merged chart point (`ChartDataPoint` minus the locale-formatted
`time` label, which is presentation-only). -/
structure ChartDataPoint where
  timestamp : Nat
  btc : ℚ
  xau : ℚ
deriving Repr, DecidableEq

/-- Ticker result of `fetchBTCPrice` / `fetchGoldPrice`.  The fallback
branch returns an object without the `change24h` field, hence `Option ℚ`. -/
structure Ticker where
  price : ℚ
  changePercent : ℚ
  change24h : Option ℚ
deriving Repr, DecidableEq

/-- Raw 24h-ticker payload fields the fetchers read (already parsed). -/
structure TickerRaw where
  lastPrice : ℚ
  priceChangePercent : ℚ
  priceChange : ℚ
deriving Repr, DecidableEq

/-- `fetchBTCPrice`: on a failed fetch (`null` payload) returns the fixed
fallback `{price: 95000, changePercent: 0}`, else the parsed fields. -/
def fetchBTCPrice (data : Option TickerRaw) : Ticker :=
  match data with
  | none => { price := 95000, changePercent := 0, change24h := none }
  | some d =>
      { price := d.lastPrice
        changePercent := d.priceChangePercent
        change24h := some d.priceChange }

/-- `fetchGoldPrice`: on a failed fetch returns the fixed fallback
`{price: 2650, changePercent: 0}`, else the parsed fields (no `priceChange`
field is read on the success path either). -/
def fetchGoldPrice (data : Option TickerRaw) : Ticker :=
  match data with
  | none => { price := 2650, changePercent := 0, change24h := none }
  | some d =>
      { price := d.lastPrice
        changePercent := d.priceChangePercent
        change24h := none }

/-- `HighLowData` entry for one timeframe bucket. -/
structure HighLowData where
  timeframe : String
  high : ℚ
  low : ℚ
  rangePercent : ℚ
deriving Repr, DecidableEq

/-- One bucket definition of `fetchHighLow`: display label, candle
interval, kline request limit. -/
structure BucketDef where
  label : String
  interval : String
  limit : Nat
deriving Repr, DecidableEq

/-- The fixed `definitions` table of `fetchHighLow`, in source order. -/
def definitions : List BucketDef :=
  [ { label := "1 Giờ", interval := "1h", limit := 2 }
  , { label := "4 Giờ", interval := "4h", limit := 2 }
  , { label := "24 Giờ", interval := "1d", limit := 1 }
  , { label := "7 Ngày", interval := "1w", limit := 1 } ]

/-- Body of the per-bucket closure in `fetchHighLow`: a `null` or empty
kline list yields the all-zero entry; otherwise the last candle's high/low
are read and `range = low > 0 ? ((high - low) / low) * 100 : 0`. -/
def bucketResult (label : String) (data : Option (List Kline)) : HighLowData :=
  match data with
  | none => { timeframe := label, high := 0, low := 0, rangePercent := 0 }
  | some ks =>
      if h : ks = [] then
        { timeframe := label, high := 0, low := 0, rangePercent := 0 }
      else
        let candle := ks.getLast h
        let high := candle.high
        let low := candle.low
        let range : ℚ := if low > 0 then ((high - low) / low) * 100 else 0
        { timeframe := label, high := high, low := low, rangePercent := range }

/-- The network environment of one `fetchHighLow` call: the kline payload
(`none` on failure) that `safeFetch` yields for a given
(symbol, interval, limit) request. -/
def KlineEnv : Type := String → String → Nat → Option (List Kline)

/-- `fetchHighLow`: maps the per-bucket computation over the fixed
`definitions` table (the `Promise.all` over the four sub-fetches). -/
def fetchHighLow (symbol : String) (env : KlineEnv) : List HighLowData :=
  definitions.map (fun d => bucketResult d.label (env symbol d.interval d.limit))

/-- The timeframe `switch` of `fetchChartData`: the `TimeFrame` enum values
are the strings `"1h" | "4h" | "24h" | "7d"`; anything else takes the
`default` branch `("1h", 168)`. -/
def chartParams (timeFrame : String) : String × Nat :=
  if timeFrame = "1h" then ("1m", 60)
  else if timeFrame = "4h" then ("5m", 48)
  else if timeFrame = "24h" then ("15m", 96)
  else if timeFrame = "7d" then ("2h", 84)
  else ("1h", 168)

/-- The `goldMap` of `fetchChartData`: `forEach`/`Map.set` over the gold
klines keyed by open time (a later row with the same timestamp overwrites an
earlier one), looked up at `t`; `none` both when the gold fetch failed and
when no row has that timestamp (`Map.get` returning `undefined`). -/
def goldMapGet (goldKlines : Option (List Kline)) (t : Nat) : Option ℚ :=
  match goldKlines with
  | none => none
  | some ks =>
      ks.foldl (fun m k => fun u => if u = k.openTime then some k.close else m u)
        (fun _ => none) t

/-- The merge of `fetchChartData` after the two kline fetches: both `null`
gives `[]`; the base series is the BTC series when non-empty, else the gold
series; each base row becomes a point whose `xau` is the gold-map match at
its timestamp with `|| 2650` applied (so a matched `0` also falls back). -/
def fetchChartData (btcKlines goldKlines : Option (List Kline)) :
    List ChartDataPoint :=
  if btcKlines = none ∧ goldKlines = none then []
  else
    let btcData := btcKlines.getD []
    let baseData := if btcData.length > 0 then btcData else goldKlines.getD []
    baseData.map (fun k =>
      let timestamp := k.openTime
      let btcClose : ℚ := if btcData.length > 0 then k.close else 0
      let xauClose : ℚ :=
        match goldMapGet goldKlines timestamp with
        | some v => if v = 0 then 2650 else v
        | none => 2650
      { timestamp := timestamp, btc := btcClose, xau := xauClose })

/-- The `ChartMode` union type: `'combined' | 'btc' | 'gold'`. -/
inductive ChartMode where
  | combined
  | btc
  | gold
deriving Repr, DecidableEq

/-- The `AnalysisInput` record passed to `fetchAIAnalysis`. -/
structure AnalysisInput where
  btcPrice : ℚ
  btcChange : ℚ
  goldPrice : ℚ
  goldChange : ℚ
  fundingRate : ℚ
  btcVolatility : List HighLowData
  goldVolatility : List HighLowData
deriving Repr

/-- JavaScript `String.prototype.includes`. -/
def jsIncludes (s sub : String) : Bool :=
  (s.splitOn sub).length > 1

/-- The `formatVol` helper of `fetchAIAnalysis` (decimal rendering of
`toFixed(2)` modelled as plain rendering; no claim depends on digit
formatting). -/
def formatVol (data : List HighLowData) : String :=
  String.intercalate "\n" (data.map (fun d =>
    "- " ++ d.timeframe ++ ": Range " ++ toString d.rangePercent ++
    "% (High: $" ++ toString d.high ++ ", Low: $" ++ toString d.low ++ ")"))

/-- The combined-mode 24H lookup
`data.find(d => d.timeframe.includes('24'))?.rangePercent`: optional
chaining renders `undefined` into the template when no bucket matches. -/
def range24h (data : List HighLowData) : String :=
  match data.find? (fun d => jsIncludes d.timeframe "24") with
  | some d => toString d.rangePercent
  | none => "undefined"

/-- The three mutually exclusive prompt templates of `fetchAIAnalysis`,
condensed to their data-bearing skeleton (the surrounding natural-language
instruction text carries no computed value and no claim mentions it). -/
def buildPrompt (m : AnalysisInput) (mode : ChartMode) : String :=
  match mode with
  | ChartMode.btc =>
      "Đóng vai một Chuyên gia Giao dịch Bitcoin (Crypto Trader Pro). " ++
      "Dữ liệu Giá: $" ++ toString m.btcPrice ++
      " (24h: " ++ toString m.btcChange ++ "%) " ++
      "Funding Rate " ++ toString m.fundingRate ++ "% " ++
      "Biến động giá: " ++ formatVol m.btcVolatility
  | ChartMode.gold =>
      "Đóng vai một Chuyên gia Giao dịch Vàng và Hàng hóa. " ++
      "Dữ liệu Giá: $" ++ toString m.goldPrice ++
      " (24h: " ++ toString m.goldChange ++ "%) " ++
      "Biến động giá: " ++ formatVol m.goldVolatility
  | ChartMode.combined =>
      "Đóng vai một Chuyên gia Chiến lược Vĩ mô (Macro Strategist). " ++
      "BTC: $" ++ toString m.btcPrice ++
      " (" ++ toString m.btcChange ++ "%) " ++
      "Gold: $" ++ toString m.goldPrice ++
      " (" ++ toString m.goldChange ++ "%) " ++
      "Biến động BTC: Range 24H là " ++ range24h m.btcVolatility ++ "% " ++
      "Biến động Gold: Range 24H là " ++ range24h m.goldVolatility ++ "%"

/-- The fixed message returned when no API credential is configured. -/
def notConfiguredMsg : String := "API Key not configured in environment."

/-- The fixed retry-later message produced by the `catch` block. -/
def retryLaterMsg : String :=
  "Hệ thống AI đang bận hoặc gặp sự cố kết nối. Vui lòng thử lại sau."

/-- `fetchAIAnalysis` (merged-app variant, which carries the credential
check inside the function; the service-file variant is otherwise identical).
`apiKey` is the configured credential (`none` = absent), `service` is one
`generateContent` round trip whose `Except.error` collapses every failure
the `catch` block sees (network error, non-2xx, malformed response, thrown
exception).  The result pairs the returned string with the number of
outbound calls issued to the text-generation service. -/
def fetchAIAnalysis (apiKey : Option String)
    (service : String → Except Unit String)
    (marketData : AnalysisInput) (mode : ChartMode) : String × Nat :=
  match apiKey with
  | none => (notConfiguredMsg, 0)
  | some _ =>
      match service (buildPrompt marketData mode) with
      | Except.ok text => (text, 1)
      | Except.error _ => (retryLaterMsg, 1)

/-! ## Helper lemmas (shared) -/

/-- Every branch of the per-bucket computation carries the bucket's label. -/
theorem bucketResult_timeframe (label : String) (data : Option (List Kline)) :
    (bucketResult label data).timeframe = label := by
  match data with
  | none => rfl
  | some ks =>
      by_cases h : ks = [] <;> simp [bucketResult, h]

/-- A failed or empty kline payload gives the all-zero bucket entry. -/
theorem bucketResult_of_no_data (label : String) (data : Option (List Kline))
    (h : data = none ∨ data = some []) :
    bucketResult label data =
      { timeframe := label, high := 0, low := 0, rangePercent := 0 } := by
  rcases h with rfl | rfl <;> simp [bucketResult]

/-- Entry `j` of `fetchHighLow` is the bucket computation of definition `j`
applied to that bucket's own fetch result. -/
theorem fetchHighLow_get?_eq (symbol : String) (env : KlineEnv) (j : Nat)
    (d : BucketDef) (hd : definitions.get? j = some d) :
    (fetchHighLow symbol env).get? j =
      some (bucketResult d.label (env symbol d.interval d.limit)) := by
  have hd' : definitions[j]? = some d := by
    rw [← List.get?_eq_getElem?]
    exact hd
  simp [fetchHighLow, List.get?_eq_getElem?, List.getElem?_map, hd']

/-- When the BTC series is non-empty, the merge maps exactly over it. -/
theorem fetchChartData_some_of_ne_nil (b : List Kline)
    (g : Option (List Kline)) (hb : b ≠ []) :
    fetchChartData (some b) g = b.map (fun k =>
      { timestamp := k.openTime, btc := k.close
        xau :=
          match goldMapGet g k.openTime with
          | some v => if v = 0 then 2650 else v
          | none => 2650 }) := by
  simp [fetchChartData, List.length_pos.mpr hb]

/-! ## Claim theorems -/

/-- Claim C1: the merged chart series has the length of the primary (BTC)
series whenever the primary series is non-empty, regardless of the secondary
(gold) payload; and when the primary series is empty (failed fetch or empty
list) while the secondary is non-empty, the output length equals the
secondary series length. -/
theorem fetchChartData_length (b g : Option (List Kline)) :
    (∀ l : List Kline, b = some l → l ≠ [] →
      (fetchChartData b g).length = l.length) ∧
    (∀ l : List Kline, (b = none ∨ b = some []) → g = some l → l ≠ [] →
      (fetchChartData b g).length = l.length) := by
  constructor
  · rintro l rfl hl
    simp [fetchChartData, List.length_pos.mpr hl]
  · rintro l (rfl | rfl) rfl hl
    · simp [fetchChartData]
    · simp [fetchChartData]

/-- Witness for C1 at concrete one-point series. -/
theorem fetchChartData_length_witness :
    (fetchChartData (some [({ openTime := 0, high := 1, low := 1, close := 2 } : Kline)])
      (some [])).length = 1 ∧
    (fetchChartData none
      (some [({ openTime := 0, high := 1, low := 1, close := 2 } : Kline)])).length = 1 :=
  ⟨(fetchChartData_length _ _).1 _ rfl (List.cons_ne_nil _ _),
   (fetchChartData_length _ _).2 _ (Or.inl rfl) rfl (List.cons_ne_nil _ _)⟩

/-- Claim C2: for a bucket whose fetched candle list is non-empty and whose
last candle has `low > 0`, the `rangePercent` entry of `fetchHighLow` equals
`(high - low) / low * 100`. -/
theorem fetchHighLow_rangePercent_pos (symbol : String) (env : KlineEnv)
    (i : Nat) (d : BucketDef) (hd : definitions.get? i = some d)
    (ks : List Kline) (hks : env symbol d.interval d.limit = some ks)
    (h : ks ≠ []) (hlow : 0 < (ks.getLast h).low) :
    ((fetchHighLow symbol env).get? i).map HighLowData.rangePercent =
      some (((ks.getLast h).high - (ks.getLast h).low) / (ks.getLast h).low * 100) := by
  rw [fetchHighLow_get?_eq symbol env i d hd, hks]
  simp [bucketResult, h, hlow]

/-- Witness for C2: a single candle with high 110, low 100 gives range 10%. -/
theorem fetchHighLow_rangePercent_pos_witness :
    ((fetchHighLow "BTCUSDT"
        (fun _ _ _ => some [({ openTime := 0, high := 110, low := 100, close := 105 } : Kline)])).get? 0).map
      HighLowData.rangePercent = some 10 := by
  have h := fetchHighLow_rangePercent_pos "BTCUSDT"
    (fun _ _ _ => some [({ openTime := 0, high := 110, low := 100, close := 105 } : Kline)])
    0 _ rfl [({ openTime := 0, high := 110, low := 100, close := 105 } : Kline)]
    rfl (List.cons_ne_nil _ _) (by norm_num [List.getLast])
  rw [h]
  norm_num [List.getLast]

/-- Claim C3: for a bucket whose last candle has `low = 0`, the
`rangePercent` entry of `fetchHighLow` equals 0: the `low > 0` guard selects
the constant-0 branch, so the division is never taken. -/
theorem fetchHighLow_rangePercent_zero_low (symbol : String) (env : KlineEnv)
    (i : Nat) (d : BucketDef) (hd : definitions.get? i = some d)
    (ks : List Kline) (hks : env symbol d.interval d.limit = some ks)
    (h : ks ≠ []) (hlow : (ks.getLast h).low = 0) :
    ((fetchHighLow symbol env).get? i).map HighLowData.rangePercent = some 0 := by
  rw [fetchHighLow_get?_eq symbol env i d hd, hks]
  simp [bucketResult, h, hlow]

/-- Witness for C3: a candle with low 0 gives range 0. -/
theorem fetchHighLow_rangePercent_zero_low_witness :
    ((fetchHighLow "BTCUSDT"
        (fun _ _ _ => some [({ openTime := 0, high := 110, low := 0, close := 105 } : Kline)])).get? 0).map
      HighLowData.rangePercent = some 0 :=
  fetchHighLow_rangePercent_zero_low "BTCUSDT"
    (fun _ _ _ => some [({ openTime := 0, high := 110, low := 0, close := 105 } : Kline)])
    0 _ rfl _ rfl (List.cons_ne_nil _ _) rfl

/-- Claim C4: with no API credential configured, `fetchAIAnalysis` returns
the fixed "not configured" message and issues zero outbound calls to the
text-generation service, for every market-data input and display mode. -/
theorem fetchAIAnalysis_no_credential (service : String → Except Unit String)
    (marketData : AnalysisInput) (mode : ChartMode) :
    fetchAIAnalysis none service marketData mode = (notConfiguredMsg, 0) := rfl

/-- Claim C5: when the text-generation round trip fails (any failure the
`catch` sees), `fetchAIAnalysis` returns the fixed retry-later string — it
is a total function into `String × Nat`, so no error propagates. -/
theorem fetchAIAnalysis_service_failure (apiKey : String)
    (service : String → Except Unit String) (marketData : AnalysisInput)
    (mode : ChartMode)
    (h : service (buildPrompt marketData mode) = Except.error ()) :
    fetchAIAnalysis (some apiKey) service marketData mode = (retryLaterMsg, 1) := by
  simp [fetchAIAnalysis, h]

/-- Witness for C5 with an always-failing service. -/
theorem fetchAIAnalysis_service_failure_witness :
    fetchAIAnalysis (some "key") (fun _ => Except.error ())
      { btcPrice := 0, btcChange := 0, goldPrice := 0, goldChange := 0,
        fundingRate := 0, btcVolatility := [], goldVolatility := [] }
      ChartMode.btc = (retryLaterMsg, 1) :=
  fetchAIAnalysis_service_failure "key" _ _ _ rfl

/-- Claim C6: a failed ticker sub-fetch (payload `null`) yields exactly the
documented fallback tuples: price 95000 / changePercent 0 for BTC and
price 2650 / changePercent 0 for gold, with no error propagated. -/
theorem ticker_fetch_fallback :
    fetchBTCPrice none = { price := 95000, changePercent := 0, change24h := none } ∧
    fetchGoldPrice none = { price := 2650, changePercent := 0, change24h := none } :=
  ⟨rfl, rfl⟩

/-- Claim C7: a bucket whose kline sub-fetch fails (`null`) or returns an
empty list contributes the all-zero entry with its own label, while every
bucket's entry is still computed from its own fetch result (no bucket
failure aborts the batch, which always has its four entries). -/
theorem fetchHighLow_bucket_fallback (symbol : String) (env : KlineEnv)
    (i : Nat) (d : BucketDef) (hd : definitions.get? i = some d)
    (hfail : env symbol d.interval d.limit = none ∨
      env symbol d.interval d.limit = some []) :
    (fetchHighLow symbol env).get? i =
      some { timeframe := d.label, high := 0, low := 0, rangePercent := 0 } ∧
    (∀ j : Nat, ∀ d' : BucketDef, definitions.get? j = some d' →
      (fetchHighLow symbol env).get? j =
        some (bucketResult d'.label (env symbol d'.interval d'.limit))) ∧
    (fetchHighLow symbol env).length = 4 := by
  refine ⟨?_, fun j d' hd' => fetchHighLow_get?_eq symbol env j d' hd', ?_⟩
  · rw [fetchHighLow_get?_eq symbol env i d hd,
      bucketResult_of_no_data d.label _ hfail]
  · simp [fetchHighLow, definitions]

/-- Witness for C7: every sub-fetch failing still yields four zero rows. -/
theorem fetchHighLow_bucket_fallback_witness :
    (fetchHighLow "BTCUSDT" (fun _ _ _ => none)).get? 0 =
      some { timeframe := "1 Giờ", high := 0, low := 0, rangePercent := 0 } ∧
    (fetchHighLow "BTCUSDT" (fun _ _ _ => none)).length = 4 :=
  ⟨(fetchHighLow_bucket_fallback "BTCUSDT" (fun _ _ _ => none) 0 _ rfl
      (Or.inl rfl)).1,
   (fetchHighLow_bucket_fallback "BTCUSDT" (fun _ _ _ => none) 0 _ rfl
      (Or.inl rfl)).2.2⟩

/-- Claim C8: the timeframe switch of `fetchChartData` is the fixed lookup
`1h ↦ (1m, 60)`, `4h ↦ (5m, 48)`, `24h ↦ (15m, 96)`, `7d ↦ (2h, 84)`, and
any other timeframe value takes the default branch `(1h, 168)`. -/
theorem chartParams_lookup :
    chartParams "1h" = ("1m", 60) ∧ chartParams "4h" = ("5m", 48) ∧
    chartParams "24h" = ("15m", 96) ∧ chartParams "7d" = ("2h", 84) ∧
    ∀ tf : String, tf ≠ "1h" → tf ≠ "4h" → tf ≠ "24h" → tf ≠ "7d" →
      chartParams tf = ("1h", 168) := by
  refine ⟨rfl, rfl, rfl, rfl, ?_⟩
  intro tf h1 h2 h3 h4
  simp [chartParams, h1, h2, h3, h4]

/-- Witness for C8: an unknown timeframe string falls back to the default. -/
theorem chartParams_lookup_witness : chartParams "2w" = ("1h", 168) :=
  chartParams_lookup.2.2.2.2 "2w" (by decide) (by decide) (by decide) (by decide)

/-- Claim C9: a primary point whose timestamp does match a gold candle, but
whose matched parsed close is 0 (falsy), receives the constant fallback
2650 via `|| 2650` — the fallback replaces every falsy matched value, not
only missing timestamps. -/
theorem fetchChartData_gold_falsy (b : List Kline) (g : Option (List Kline))
    (i : Nat) (k : Kline) (hk : b.get? i = some k)
    (hv : goldMapGet g k.openTime = some 0) :
    ((fetchChartData (some b) g).get? i).map ChartDataPoint.xau = some 2650 := by
  have hb : b ≠ [] := by
    intro hnil
    rw [hnil] at hk
    simp at hk
  have hk' : b[i]? = some k := by
    rw [← List.get?_eq_getElem?]
    exact hk
  rw [fetchChartData_some_of_ne_nil b g hb, List.get?_eq_getElem?,
    List.getElem?_map, hk']
  simp [hv]

/-- Witness for C9: a matched gold candle closing at 0 yields xau 2650. -/
theorem fetchChartData_gold_falsy_witness :
    ((fetchChartData
        (some [({ openTime := 100, high := 1, low := 1, close := 50 } : Kline)])
        (some [({ openTime := 100, high := 2, low := 1, close := 0 } : Kline)])).get? 0).map
      ChartDataPoint.xau = some 2650 :=
  fetchChartData_gold_falsy _ _ 0 _ rfl rfl

/-- Claim C10: for every symbol and fetch environment, `fetchHighLow`
returns exactly four entries whose timeframe labels are, in order,
`1 Giờ`, `4 Giờ`, `24 Giờ`, `7 Ngày`. -/
theorem fetchHighLow_shape (symbol : String) (env : KlineEnv) :
    (fetchHighLow symbol env).length = 4 ∧
    (fetchHighLow symbol env).map HighLowData.timeframe =
      ["1 Giờ", "4 Giờ", "24 Giờ", "7 Ngày"] := by
  constructor
  · simp [fetchHighLow, definitions]
  · simp [fetchHighLow, definitions, bucketResult_timeframe]

end MarketService
